import Mathlib

/-!
Verification of the CMSServer mixin layer (src/CMSServer/mixins.py).

The repository is a set of Django/DRF mixin classes implementing
authorization and ownership filtering for a blog CMS.  We shallowly embed
each mixin hook as a pure Lean function: the framework request is modelled
by passing the requesting user explicitly, ORM querysets by lists of
records, parent-class behaviour (the `super()` calls) by an explicit
parameter, raised exceptions by `Except`, and external helpers
(`can_edit_post`, `authenticate_user`) by function parameters.
-/

namespace CMSServer

/-- Model of an auth user: Django's request.user.  An anonymous user has
`is_authenticated = false`; a real account always has it true. -/
structure User where
  id : Nat
  username : String
  is_superuser : Bool
  is_authenticated : Bool
deriving DecidableEq, Repr

/-- Model of the Blog record: owned by exactly one user. -/
structure Blog where
  id : Nat
  title : String
  description : String
  user : User
deriving DecidableEq, Repr

/-- Model of the Post record: belongs to exactly one blog. -/
structure Post where
  id : Nat
  title : String
  blog : Blog
deriving DecidableEq, Repr

/-- The exceptions the mixins raise: DRF PermissionDenied / Django
PermissionDenied, and the custom AuthenticationError and
InvalidCredentialsError from CMSServer.exceptions. -/
inductive ApiError where
  | permissionDenied (msg : String)
  | authenticationError (msg : String)
  | invalidCredentials (msg : String)
deriving DecidableEq, Repr

/-- The single mutating call a lifecycle hook ends in: serializer.save()
or instance.delete().  A hook that raises returns `Except.error` instead,
so an error value means no mutation was performed. -/
inductive Effect where
  | save
  | delete
deriving DecidableEq, Repr

/-- The DRF permission classes instantiated by get_permissions. -/
inductive Permission where
  | AllowAny
  | IsAuthenticated
deriving DecidableEq, Repr

/-- Embedding of PostReadonlyFieldsMixin.get_readonly_fields
(mixins.py lines 13-18).  `parent_ro` is the list returned by
`super().get_readonly_fields(request, obj)`. -/
def PostReadonlyFieldsMixin.get_readonly_fields
    (parent_ro : List String) (user : User) (obj : Option Post) : List String :=
  if ¬ user.is_superuser ∧ obj ≠ none ∧ "blog" ∉ parent_ro then
    parent_ro ++ ["blog"]
  else
    parent_ro

/-- Embedding of PublicReadOnlyMixin.get_permissions (mixins.py lines
21-33); `act` is the viewset's self.action. -/
def PublicReadOnlyMixin.get_permissions (act : String) : List Permission :=
  if act = "list" ∨ act = "retrieve" then
    [Permission.AllowAny]
  else
    [Permission.IsAuthenticated]

/-- Embedding of BlogOwnerPermissionMixin.perform_update (mixins.py lines
56-62).  `blog` is the object returned by self.get_object(); `user` is
self.request.user.  `Except.ok Effect.save` models serializer.save(). -/
def BlogOwnerPermissionMixin.perform_update
    (blog : Blog) (user : User) : Except ApiError Effect :=
  if blog.user ≠ user ∧ ¬ user.is_superuser then
    Except.error (ApiError.permissionDenied "Only the owner of the blog can edit it")
  else
    Except.ok Effect.save

/-- Embedding of BlogOwnerPermissionMixin.perform_destroy (mixins.py lines
64-69).  `Except.ok Effect.delete` models instance.delete(). -/
def BlogOwnerPermissionMixin.perform_destroy
    (inst : Blog) (user : User) : Except ApiError Effect :=
  if inst.user ≠ user ∧ ¬ user.is_superuser then
    Except.error (ApiError.permissionDenied "Only the owner of the blog can delete it")
  else
    Except.ok Effect.delete

/-- Embedding of PostOwnerQuerysetAdminMixin.get_queryset (mixins.py lines
72-79).  `qs` is the queryset from `super().get_queryset(request)`;
qs.none() is the empty list and qs.filter(blog__user=request.user) keeps
the posts whose blog's owner is the requesting user. -/
def PostOwnerQuerysetAdminMixin.get_queryset
    (qs : List Post) (user : User) : List Post :=
  if ¬ user.is_authenticated then
    []
  else if ¬ user.is_superuser then
    qs.filter (fun p => decide (p.blog.user = user))
  else
    qs

/-- Embedding of PostOwnerQuerysetViewSetMixin.get_queryset (mixins.py
lines 82-90).  Identical to the admin variant except that for an
unauthenticated request the code returns qs unfiltered instead of
qs.none(). -/
def PostOwnerQuerysetViewSetMixin.get_queryset
    (qs : List Post) (user : User) : List Post :=
  if ¬ user.is_authenticated then
    qs
  else if ¬ user.is_superuser then
    qs.filter (fun p => decide (p.blog.user = user))
  else
    qs

/-- Outcome of PostEditorMixin.perform_create: the blog freshly created by
Blog.objects.create, if any, and the blog value passed to
serializer.save(blog=...), i.e. the blog the new post is attached to. -/
structure CreateResult where
  created_blog : Option Blog
  saved_blog : Blog
deriving DecidableEq, Repr

/-- The Blog built by Blog.objects.create inside perform_create
(mixins.py lines 119-123): title "Blog de {username}", description
"Blog personal", owned by the requesting user.  `fresh_id` models the
database-assigned primary key. -/
def PostEditorMixin.fresh_blog (user : User) (fresh_id : Nat) : Blog :=
  { id := fresh_id
    title := "Blog de " ++ user.username
    description := "Blog personal"
    user := user }

/-- Embedding of PostEditorMixin.perform_create (mixins.py lines
112-126).  `user_blog` models the reverse one-to-one accessor
request.user.blog: `none` exactly when hasattr(request.user, "blog") is
false.  `client_blog` models the blog value, if any, in the serializer's
client-supplied validated data; serializer.save(blog=...) passes blog as
a keyword argument, which in DRF overrides validated data, so the code
never consults it. -/
def PostEditorMixin.perform_create (user : User) (user_blog : Option Blog)
    (client_blog : Option Blog) (fresh_id : Nat) : Except ApiError CreateResult :=
  if ¬ user.is_authenticated then
    Except.error (ApiError.authenticationError "Authentication required to create posts.")
  else
    match user_blog with
    | none =>
        let blog := PostEditorMixin.fresh_blog user fresh_id
        Except.ok { created_blog := some blog, saved_blog := blog }
    | some b =>
        Except.ok { created_blog := none, saved_blog := b }

/-- Embedding of PostEditorMixin.perform_update (mixins.py lines
128-134).  `cep` is the external predicate can_edit_post imported from
CMSServer.permissions (not part of this source tree), passed in
abstractly; `post` is self.get_object(). -/
def PostEditorMixin.perform_update (cep : User → Post → Bool)
    (user : User) (post : Post) : Except ApiError Effect :=
  if ¬ user.is_authenticated then
    Except.error (ApiError.authenticationError "Authentication required to edit posts.")
  else if ¬ cep user post then
    Except.error (ApiError.permissionDenied "You are not allowed to edit this post.")
  else
    Except.ok Effect.save

/-- Embedding of PostEditorMixin.perform_destroy (mixins.py lines
136-142). -/
def PostEditorMixin.perform_destroy (cep : User → Post → Bool)
    (user : User) (inst : Post) : Except ApiError Effect :=
  if ¬ user.is_authenticated then
    Except.error (ApiError.authenticationError "Authentication required to delete posts.")
  else if ¬ cep user inst then
    Except.error (ApiError.permissionDenied "You are not allowed to delete this post.")
  else
    Except.ok Effect.delete

/-- Embedding of AuthenticationMixin.authenticate_user (mixins.py lines
152-158).  `helper` is the external authenticate_user function imported
from CMSServer.utils (not part of this source tree); a falsy result is
modelled as `none`. -/
def AuthenticationMixin.authenticate_user
    (helper : String → String → Option User)
    (username : String) (password : String) : Except ApiError User :=
  match helper username password with
  | none => Except.error (ApiError.invalidCredentials "Invalid credentials")
  | some u => Except.ok u

/-! Concrete fixtures used by witnesses and counterexamples, following the
worked example in the spec: user A owns blog B1 with post P1, user C owns
blog B2 with post P2. -/

/-- Regular authenticated user A. -/
def userA : User :=
  { id := 1, username := "alice", is_superuser := false, is_authenticated := true }

/-- Regular authenticated user C. -/
def userC : User :=
  { id := 2, username := "carol", is_superuser := false, is_authenticated := true }

/-- An authenticated superuser. -/
def superUser : User :=
  { id := 3, username := "root", is_superuser := true, is_authenticated := true }

/-- The anonymous (unauthenticated) user. -/
def anonUser : User :=
  { id := 0, username := "", is_superuser := false, is_authenticated := false }

/-- Blog B1, owned by user A. -/
def blogB1 : Blog :=
  { id := 1, title := "B1", description := "first blog", user := userA }

/-- Blog B2, owned by user C. -/
def blogB2 : Blog :=
  { id := 2, title := "B2", description := "second blog", user := userC }

/-- Post P1 on blog B1. -/
def postP1 : Post := { id := 1, title := "P1", blog := blogB1 }

/-- Post P2 on blog B2. -/
def postP2 : Post := { id := 2, title := "P2", blog := blogB2 }

/-- C1: for every authenticated non-superuser requesting user u, both
PostOwnerQuerysetViewSetMixin.get_queryset and
PostOwnerQuerysetAdminMixin.get_queryset return exactly the posts p of
the base queryset with p.blog.user = u; for every superuser the base
queryset is returned unfiltered. -/
theorem C1_owner_queryset_scoping (qs : List Post) (u : User)
    (hauth : u.is_authenticated = true) :
    (u.is_superuser = false →
      (∀ p, p ∈ PostOwnerQuerysetViewSetMixin.get_queryset qs u ↔
        p ∈ qs ∧ p.blog.user = u) ∧
      (∀ p, p ∈ PostOwnerQuerysetAdminMixin.get_queryset qs u ↔
        p ∈ qs ∧ p.blog.user = u)) ∧
    (u.is_superuser = true →
      PostOwnerQuerysetViewSetMixin.get_queryset qs u = qs ∧
      PostOwnerQuerysetAdminMixin.get_queryset qs u = qs) := by
  constructor
  · intro hsup
    constructor
    · intro p
      simp [PostOwnerQuerysetViewSetMixin.get_queryset, hauth, hsup, List.mem_filter]
    · intro p
      simp [PostOwnerQuerysetAdminMixin.get_queryset, hauth, hsup, List.mem_filter]
  · intro hsup
    constructor
    · simp [PostOwnerQuerysetViewSetMixin.get_queryset, hauth, hsup]
    · simp [PostOwnerQuerysetAdminMixin.get_queryset, hauth, hsup]

/-- Witness for C1 at the spec's worked example: user A is authenticated
and not a superuser, and querying the base queryset [P1, P2] as A keeps
exactly P1 (P1 belongs to A's blog, P2 does not). -/
theorem C1_owner_queryset_scoping_witness :
    userA.is_authenticated = true ∧ userA.is_superuser = false ∧
    ((postP1 ∈ PostOwnerQuerysetViewSetMixin.get_queryset [postP1, postP2] userA ↔
       postP1 ∈ [postP1, postP2] ∧ postP1.blog.user = userA) ∧
     (postP2 ∈ PostOwnerQuerysetAdminMixin.get_queryset [postP1, postP2] userA ↔
       postP2 ∈ [postP1, postP2] ∧ postP2.blog.user = userA)) := by
  refine ⟨by decide, by decide, ?_, ?_⟩
  · exact ((C1_owner_queryset_scoping [postP1, postP2] userA (by decide)).1
      (by decide)).1 postP1
  · exact ((C1_owner_queryset_scoping [postP1, postP2] userA (by decide)).1
      (by decide)).2 postP2

/-- C2: for every unauthenticated request the admin mixin returns the
empty queryset while the viewset mixin returns the base queryset
unfiltered (and on a nonempty base queryset the two results differ); for
every authenticated request the two mixins return the same queryset, so
they disagree precisely on unauthenticated users. -/
theorem C2_unauthenticated_divergence (qs : List Post) (u : User) :
    (u.is_authenticated = false →
      PostOwnerQuerysetAdminMixin.get_queryset qs u = [] ∧
      PostOwnerQuerysetViewSetMixin.get_queryset qs u = qs ∧
      (qs ≠ [] →
        PostOwnerQuerysetAdminMixin.get_queryset qs u ≠
          PostOwnerQuerysetViewSetMixin.get_queryset qs u)) ∧
    (u.is_authenticated = true →
      PostOwnerQuerysetAdminMixin.get_queryset qs u =
        PostOwnerQuerysetViewSetMixin.get_queryset qs u) := by
  constructor
  · intro hanon
    refine ⟨?_, ?_, ?_⟩
    · simp [PostOwnerQuerysetAdminMixin.get_queryset, hanon]
    · simp [PostOwnerQuerysetViewSetMixin.get_queryset, hanon]
    · intro hne
      simp [PostOwnerQuerysetAdminMixin.get_queryset,
        PostOwnerQuerysetViewSetMixin.get_queryset, hanon]
      exact fun h => hne h
  · intro hauth
    simp [PostOwnerQuerysetAdminMixin.get_queryset,
      PostOwnerQuerysetViewSetMixin.get_queryset, hauth]

/-- Witness for C2: the anonymous user gets an empty queryset from the
admin mixin and the full queryset from the viewset mixin on base
queryset [P1]. -/
theorem C2_unauthenticated_divergence_witness :
    anonUser.is_authenticated = false ∧
    PostOwnerQuerysetAdminMixin.get_queryset [postP1] anonUser = [] ∧
    PostOwnerQuerysetViewSetMixin.get_queryset [postP1] anonUser = [postP1] := by
  refine ⟨by decide, ?_, ?_⟩
  · exact ((C2_unauthenticated_divergence [postP1] anonUser).1 (by decide)).1
  · exact ((C2_unauthenticated_divergence [postP1] anonUser).1 (by decide)).2.1

/-- C3 counterexample: the claim says "blog" is absent from the returned
list for every superuser call, but when the parent class's read-only
list already contains "blog" the function returns it unchanged, so the
superuser call below returns a list containing "blog". -/
theorem C3_superuser_counterexample :
    superUser.is_superuser = true ∧
    "blog" ∈ PostReadonlyFieldsMixin.get_readonly_fields ["blog"] superUser
      (some postP1) := by
  decide

/-- C3 amended: for every call with a non-superuser requesting user and a
non-None object, "blog" is in the returned list; for every call with a
superuser requesting user, or with obj = None, the returned list is the
parent's list unchanged, so "blog" is absent exactly when it is absent
from the parent's list. -/
theorem C3_readonly_fields_amended
    (parent_ro : List String) (u : User) (obj : Option Post) :
    (u.is_superuser = false → obj ≠ none →
      "blog" ∈ PostReadonlyFieldsMixin.get_readonly_fields parent_ro u obj) ∧
    (u.is_superuser = true ∨ obj = none →
      PostReadonlyFieldsMixin.get_readonly_fields parent_ro u obj = parent_ro) := by
  unfold PostReadonlyFieldsMixin.get_readonly_fields
  constructor
  · intro hsup hobj
    by_cases hblog : "blog" ∈ parent_ro
    · simp [hblog]
    · simp [hsup, hobj, hblog]
  · intro h
    rcases h with hsup | hobj
    · simp [hsup]
    · simp [hobj]

/-- Witness for C3 amended: user A editing the existing post P1 with an
empty parent list gets "blog" marked read-only, and a superuser call on
the same inputs returns the parent list unchanged. -/
theorem C3_readonly_fields_amended_witness :
    userA.is_superuser = false ∧ (some postP1 ≠ none) ∧
    "blog" ∈ PostReadonlyFieldsMixin.get_readonly_fields [] userA (some postP1) ∧
    PostReadonlyFieldsMixin.get_readonly_fields [] superUser (some postP1) = [] := by
  refine ⟨by decide, by simp, ?_, ?_⟩
  · exact (C3_readonly_fields_amended [] userA (some postP1)).1 (by decide) (by simp)
  · exact (C3_readonly_fields_amended [] superUser (some postP1)).2 (Or.inl (by decide))

/-- C10: the returned read-only list keeps every field of the parent's
list, "blog" is appended at most once, and when the parent's list already
contains "blog" the list is returned unchanged (no duplicate added). -/
theorem C10_readonly_fields_monotone
    (parent_ro : List String) (u : User) (obj : Option Post) :
    (∀ f, f ∈ parent_ro →
      f ∈ PostReadonlyFieldsMixin.get_readonly_fields parent_ro u obj) ∧
    (PostReadonlyFieldsMixin.get_readonly_fields parent_ro u obj).count "blog" ≤
      parent_ro.count "blog" + 1 ∧
    ("blog" ∈ parent_ro →
      PostReadonlyFieldsMixin.get_readonly_fields parent_ro u obj = parent_ro) := by
  unfold PostReadonlyFieldsMixin.get_readonly_fields
  refine ⟨?_, ?_, ?_⟩
  · intro f hf
    split
    · exact List.mem_append_left _ hf
    · exact hf
  · split
    · simp [List.count_append]
    · exact Nat.le_succ_of_le (Nat.le_refl _)
  · intro hblog
    simp [hblog]

/-- Witness for C10: with parent list ["title", "blog"] every parent field
is kept and no second "blog" is appended. -/
theorem C10_readonly_fields_monotone_witness :
    "blog" ∈ ["title", "blog"] ∧
    PostReadonlyFieldsMixin.get_readonly_fields ["title", "blog"] userA (some postP1) =
      ["title", "blog"] := by
  refine ⟨by decide, ?_⟩
  exact (C10_readonly_fields_monotone ["title", "blog"] userA (some postP1)).2.2
    (by decide)

/-- C4: a perform_update or perform_destroy on BlogOwnerPermissionMixin by
a requester who is neither the target blog's owner nor a superuser raises
PermissionDenied and performs no mutation (the result is an error, never
Effect.save or Effect.delete); an owner or superuser gets the save or
delete performed. -/
theorem C4_blog_owner_permission (blog : Blog) (u : User) :
    (blog.user ≠ u ∧ u.is_superuser = false →
      BlogOwnerPermissionMixin.perform_update blog u =
        Except.error (ApiError.permissionDenied "Only the owner of the blog can edit it") ∧
      BlogOwnerPermissionMixin.perform_destroy blog u =
        Except.error (ApiError.permissionDenied "Only the owner of the blog can delete it")) ∧
    (blog.user = u ∨ u.is_superuser = true →
      BlogOwnerPermissionMixin.perform_update blog u = Except.ok Effect.save ∧
      BlogOwnerPermissionMixin.perform_destroy blog u = Except.ok Effect.delete) := by
  constructor
  · rintro ⟨hown, hsup⟩
    constructor
    · simp [BlogOwnerPermissionMixin.perform_update, hown, hsup]
    · simp [BlogOwnerPermissionMixin.perform_destroy, hown, hsup]
  · intro h
    have hcond : ¬ (blog.user ≠ u ∧ ¬ u.is_superuser = true) := by
      rcases h with hown | hsup
      · exact fun hc => hc.1 hown
      · exact fun hc => hc.2 hsup
    constructor
    · unfold BlogOwnerPermissionMixin.perform_update
      rw [if_neg hcond]
    · unfold BlogOwnerPermissionMixin.perform_destroy
      rw [if_neg hcond]

/-- Witness for C4: user C is not the owner of blog B1 and not a
superuser, so update and destroy are both denied; user A owns B1, so the
update is performed. -/
theorem C4_blog_owner_permission_witness :
    (blogB1.user ≠ userC ∧ userC.is_superuser = false) ∧
    BlogOwnerPermissionMixin.perform_update blogB1 userC =
      Except.error (ApiError.permissionDenied "Only the owner of the blog can edit it") ∧
    BlogOwnerPermissionMixin.perform_update blogB1 userA = Except.ok Effect.save := by
  refine ⟨⟨by decide, by decide⟩, ?_, ?_⟩
  · exact ((C4_blog_owner_permission blogB1 userC).1 ⟨by decide, by decide⟩).1
  · exact ((C4_blog_owner_permission blogB1 userA).2 (Or.inl (by decide))).1

/-- C5: an authenticated user with no existing blog gets a fresh Blog
titled "Blog de {username}" owned by them, and the post is saved attached
to that new blog; an authenticated user with an existing blog gets no new
blog and the post is saved attached to the existing one. -/
theorem C5_perform_create_provisioning (u : User) (client_blog : Option Blog)
    (fresh_id : Nat) (hauth : u.is_authenticated = true) :
    (PostEditorMixin.perform_create u none client_blog fresh_id =
      Except.ok { created_blog := some (PostEditorMixin.fresh_blog u fresh_id),
                  saved_blog := PostEditorMixin.fresh_blog u fresh_id } ∧
      (PostEditorMixin.fresh_blog u fresh_id).title = "Blog de " ++ u.username ∧
      (PostEditorMixin.fresh_blog u fresh_id).user = u) ∧
    (∀ b, PostEditorMixin.perform_create u (some b) client_blog fresh_id =
      Except.ok { created_blog := none, saved_blog := b }) := by
  refine ⟨⟨?_, rfl, rfl⟩, ?_⟩
  · simp [PostEditorMixin.perform_create, hauth]
  · intro b
    simp [PostEditorMixin.perform_create, hauth]

/-- Witness for C5: user A without a blog gets the auto-created blog
"Blog de alice"; user A with existing blog B1 gets the post attached to
B1 and no new blog. -/
theorem C5_perform_create_provisioning_witness :
    userA.is_authenticated = true ∧
    (PostEditorMixin.fresh_blog userA 7).title = "Blog de alice" ∧
    PostEditorMixin.perform_create userA (some blogB1) none 7 =
      Except.ok { created_blog := none, saved_blog := blogB1 } := by
  refine ⟨by decide, ?_, ?_⟩
  · exact ((C5_perform_create_provisioning userA none 7 (by decide)).1.2.1).trans
      (by decide)
  · exact (C5_perform_create_provisioning userA none 7 (by decide)).2 blogB1

/-- C6: PublicReadOnlyMixin.get_permissions returns exactly [AllowAny]
when the action is "list" or "retrieve", and exactly [IsAuthenticated]
for every other action. -/
theorem C6_public_read_only_permissions (act : String) :
    (act = "list" ∨ act = "retrieve" →
      PublicReadOnlyMixin.get_permissions act = [Permission.AllowAny]) ∧
    (act ≠ "list" ∧ act ≠ "retrieve" →
      PublicReadOnlyMixin.get_permissions act = [Permission.IsAuthenticated]) := by
  constructor
  · intro h
    simp [PublicReadOnlyMixin.get_permissions, h]
  · rintro ⟨h1, h2⟩
    simp [PublicReadOnlyMixin.get_permissions, h1, h2]

/-- Witness for C6: the "retrieve" action is open to all and the "create"
action requires authentication. -/
theorem C6_public_read_only_permissions_witness :
    PublicReadOnlyMixin.get_permissions "retrieve" = [Permission.AllowAny] ∧
    PublicReadOnlyMixin.get_permissions "create" = [Permission.IsAuthenticated] := by
  constructor
  · exact (C6_public_read_only_permissions "retrieve").1 (Or.inr rfl)
  · exact (C6_public_read_only_permissions "create").2 ⟨by decide, by decide⟩

/-- C7: for an unauthenticated requester, PostEditorMixin.perform_create,
perform_update and perform_destroy each raise AuthenticationError and
perform no save or delete; for an authenticated requester, perform_update
and perform_destroy raise PermissionDenied exactly when the external
can_edit_post predicate is false, and otherwise perform the save or
delete. -/
theorem C7_post_editor_auth_gate (cep : User → Post → Bool) (u : User) (p : Post)
    (user_blog client_blog : Option Blog) (fresh_id : Nat) :
    (u.is_authenticated = false →
      PostEditorMixin.perform_create u user_blog client_blog fresh_id =
        Except.error (ApiError.authenticationError
          "Authentication required to create posts.") ∧
      PostEditorMixin.perform_update cep u p =
        Except.error (ApiError.authenticationError
          "Authentication required to edit posts.") ∧
      PostEditorMixin.perform_destroy cep u p =
        Except.error (ApiError.authenticationError
          "Authentication required to delete posts.")) ∧
    (u.is_authenticated = true →
      (cep u p = false →
        PostEditorMixin.perform_update cep u p =
          Except.error (ApiError.permissionDenied
            "You are not allowed to edit this post.") ∧
        PostEditorMixin.perform_destroy cep u p =
          Except.error (ApiError.permissionDenied
            "You are not allowed to delete this post.")) ∧
      (cep u p = true →
        PostEditorMixin.perform_update cep u p = Except.ok Effect.save ∧
        PostEditorMixin.perform_destroy cep u p = Except.ok Effect.delete)) := by
  constructor
  · intro hanon
    refine ⟨?_, ?_, ?_⟩
    · simp [PostEditorMixin.perform_create, hanon]
    · simp [PostEditorMixin.perform_update, hanon]
    · simp [PostEditorMixin.perform_destroy, hanon]
  · intro hauth
    constructor
    · intro hdeny
      constructor
      · simp [PostEditorMixin.perform_update, hauth, hdeny]
      · simp [PostEditorMixin.perform_destroy, hauth, hdeny]
    · intro hallow
      constructor
      · simp [PostEditorMixin.perform_update, hauth, hallow]
      · simp [PostEditorMixin.perform_destroy, hauth, hallow]

/-- Witness for C7: with a predicate allowing only blog owners to edit,
the anonymous user is rejected with an authentication error, user C is
denied on post P1, and user A deletes P1. -/
theorem C7_post_editor_auth_gate_witness :
    anonUser.is_authenticated = false ∧
    PostEditorMixin.perform_update (fun v q => v == q.blog.user) anonUser postP1 =
      Except.error (ApiError.authenticationError
        "Authentication required to edit posts.") ∧
    PostEditorMixin.perform_update (fun v q => v == q.blog.user) userC postP1 =
      Except.error (ApiError.permissionDenied
        "You are not allowed to edit this post.") ∧
    PostEditorMixin.perform_destroy (fun v q => v == q.blog.user) userA postP1 =
      Except.ok Effect.delete := by
  refine ⟨by decide, ?_, ?_, ?_⟩
  · exact ((C7_post_editor_auth_gate (fun v q => v == q.blog.user) anonUser postP1
      none none 0).1 (by decide)).2.1
  · exact (((C7_post_editor_auth_gate (fun v q => v == q.blog.user) userC postP1
      none none 0).2 (by decide)).1 (by decide)).1
  · exact (((C7_post_editor_auth_gate (fun v q => v == q.blog.user) userA postP1
      none none 0).2 (by decide)).2 (by decide)).2

/-- C8: AuthenticationMixin.authenticate_user raises
InvalidCredentialsError exactly when the external helper returns a falsy
(none) result, and otherwise returns the user the helper returned. -/
theorem C8_authenticate_user_wrapping (helper : String → String → Option User)
    (username password : String) :
    (helper username password = none ↔
      AuthenticationMixin.authenticate_user helper username password =
        Except.error (ApiError.invalidCredentials "Invalid credentials")) ∧
    (∀ u, helper username password = some u →
      AuthenticationMixin.authenticate_user helper username password =
        Except.ok u) := by
  constructor
  · constructor
    · intro hnone
      simp [AuthenticationMixin.authenticate_user, hnone]
    · intro hres
      cases hh : helper username password with
      | none => rfl
      | some u => simp [AuthenticationMixin.authenticate_user, hh] at hres
  · intro u hu
    simp [AuthenticationMixin.authenticate_user, hu]

/-- Witness for C8: a helper accepting only the pair (alice, pw1) yields
user A on the right credentials and InvalidCredentialsError on a wrong
password. -/
theorem C8_authenticate_user_wrapping_witness :
    (fun n p => if n = "alice" ∧ p = "pw1" then some userA else none) "alice" "pw1"
      = some userA ∧
    AuthenticationMixin.authenticate_user
      (fun n p => if n = "alice" ∧ p = "pw1" then some userA else none)
      "alice" "pw1" = Except.ok userA ∧
    AuthenticationMixin.authenticate_user
      (fun n p => if n = "alice" ∧ p = "pw1" then some userA else none)
      "alice" "bad" =
      Except.error (ApiError.invalidCredentials "Invalid credentials") := by
  refine ⟨by decide, ?_, ?_⟩
  · exact (C8_authenticate_user_wrapping
      (fun n p => if n = "alice" ∧ p = "pw1" then some userA else none)
      "alice" "pw1").2 userA (by decide)
  · exact (C8_authenticate_user_wrapping
      (fun n p => if n = "alice" ∧ p = "pw1" then some userA else none)
      "alice" "bad").1.mp (by decide)

/-- C9: perform_create never reads the client-supplied blog value — the
result is the same for any two client blog values — and every successful
create saves the post on the requester's own blog: its owner is the
requester, and it is either the user's existing blog or the blog the call
just created.  The hypothesis hown states the database invariant that the
reverse accessor user.blog, when present, is a blog owned by that user. -/
theorem C9_create_ignores_client_blog (u : User) (user_blog cb1 cb2 : Option Blog)
    (fresh_id : Nat) (hauth : u.is_authenticated = true)
    (hown : ∀ b, user_blog = some b → b.user = u) :
    PostEditorMixin.perform_create u user_blog cb1 fresh_id =
      PostEditorMixin.perform_create u user_blog cb2 fresh_id ∧
    (∀ r, PostEditorMixin.perform_create u user_blog cb1 fresh_id = Except.ok r →
      r.saved_blog.user = u ∧
      (user_blog = some r.saved_blog ∨
        (user_blog = none ∧ r.created_blog = some r.saved_blog))) := by
  constructor
  · rfl
  · intro r hr
    cases user_blog with
    | none =>
      simp [PostEditorMixin.perform_create, hauth] at hr
      subst hr
      exact ⟨rfl, Or.inr ⟨rfl, rfl⟩⟩
    | some b =>
      simp [PostEditorMixin.perform_create, hauth] at hr
      subst hr
      exact ⟨hown b rfl, Or.inl rfl⟩

/-- Witness for C9: user A creating a post while owning blog B1 saves the
post on B1 regardless of the client-supplied blog B2. -/
theorem C9_create_ignores_client_blog_witness :
    userA.is_authenticated = true ∧ blogB1.user = userA ∧
    PostEditorMixin.perform_create userA (some blogB1) (some blogB2) 9 =
      PostEditorMixin.perform_create userA (some blogB1) none 9 ∧
    ({ created_blog := none, saved_blog := blogB1 } : CreateResult).saved_blog.user
      = userA := by
  refine ⟨by decide, by decide, ?_, ?_⟩
  · exact (C9_create_ignores_client_blog userA (some blogB1) (some blogB2) none 9
      (by decide) (fun b hb => by cases hb; decide)).1
  · exact ((C9_create_ignores_client_blog userA (some blogB1) (some blogB2) none 9
      (by decide) (fun b hb => by cases hb; decide)).2
      { created_blog := none, saved_blog := blogB1 } rfl).1

end CMSServer
